import Mathlib

/-
Verification development for the CerebroVial vision pipeline.

Shallow embedding of the core stream-processing components:
  * domain entities            (src/vision/domain/entities.py)
  * traffic aggregation        (src/vision/application/aggregators/sync_aggregator.py,
                                src/vision/application/aggregators/async_aggregator.py
                                — the per-zone arithmetic of `flush` and
                                `_compute_aggregates` is line-for-line identical)
  * zone counting              (src/vision/infrastructure/zones/zone_counter.py)
  * speed estimation           (src/vision/infrastructure/tracking/speed_estimator.py)
  * class stabilization        (src/vision/infrastructure/tracking/supervision_tracker.py)
  * catch-up frame skipping    (src/vision/application/pipelines/async_pipeline.py)
  * pub/sub broadcasting       (src/vision/infrastructure/broadcast/realtime_broadcaster.py)

Python floats are embedded as ℚ (the claims under study are exact identities and
inequalities in which no rounding is at stake), Python ints as ℕ/ℤ, Python dicts
as association lists, and Python sets as deduplicated lists.
-/

namespace CerebroVial

/-- Embeds the `DetectedVehicle` dataclass of entities.py: a vehicle detection with
tracker-assigned id, class label, confidence, pixel bbox `(x1, y1, x2, y2)`,
capture timestamp and optional speed in km/h. -/
structure DetectedVehicle where
  id : String
  type : String
  confidence : ℚ
  bbox : ℤ × ℤ × ℤ × ℤ
  timestamp : ℚ
  speed : Option ℚ := none
deriving Repr, DecidableEq

/-- Embeds the `ZoneVehicleCount` dataclass of entities.py: the per-zone-per-frame
snapshot. `vehicle_details` embeds the Python `dict` ID → type as an association
list (each frame inserts one entry per contained vehicle, keyed by the unique
tracker id, so keys are distinct within a frame). -/
structure ZoneVehicleCount where
  zone_id : String
  vehicle_count : ℕ
  timestamp : ℚ := 0
  vehicles : List String := []
  vehicle_details : List (String × String) := []
  avg_speed : ℚ := 0
  occupancy : ℚ := 0
  vehicle_types : List (String × ℕ) := []
  camera_id : String := "unknown"
  street_monitored : String := "unknown"
deriving Repr, DecidableEq, Inhabited

/-- Embeds the `FrameAnalysis` dataclass of entities.py (the `zones = None` default
of the Python dataclass is embedded as the empty list, which the aggregator skips
exactly as the code skips a falsy `zones`). -/
structure FrameAnalysis where
  frame_id : ℕ
  timestamp : ℚ
  vehicles : List DetectedVehicle
  total_count : ℕ
  zones : List ZoneVehicleCount := []
deriving Repr, DecidableEq

/-- Embeds the `TrafficData` dataclass of entities.py: one aggregated record per
zone per flush. -/
structure TrafficData where
  timestamp : ℚ
  zone_id : String
  camera_id : String
  street_monitored : String
  duration_seconds : ℚ
  total_vehicles : ℕ
  avg_density : ℚ
  avg_speed : ℚ
  avg_occupancy : ℚ
  flow_rate_per_min : ℕ
  car_count : ℕ
  bus_count : ℕ
  truck_count : ℕ
  motorcycle_count : ℕ
  vehicle_types : List (String × ℕ)
deriving Repr, DecidableEq, Inhabited

/-! ### Traffic aggregation

The per-zone arithmetic of `TrafficDataAggregator.flush` (sync_aggregator.py) and
`AsyncTrafficDataAggregator._compute_aggregates` (async_aggregator.py) is
identical; both are embedded once below. -/

/-- Embeds the weighted-speed numerator loop of `flush`: `total_speed_sum`
accumulates `s.avg_speed * s.vehicle_count` over statuses with
`s.avg_speed > 0 and s.vehicle_count > 0`. -/
def totalSpeedSum (statuses : List ZoneVehicleCount) : ℚ :=
  statuses.foldl
    (fun acc s =>
      if 0 < s.avg_speed ∧ 0 < s.vehicle_count then acc + s.avg_speed * s.vehicle_count else acc)
    0

/-- Embeds the weighted-speed denominator loop of `flush`:
`total_vehicles_with_speed` accumulates `s.vehicle_count` over the same qualifying
statuses. -/
def totalVehiclesWithSpeed (statuses : List ZoneVehicleCount) : ℕ :=
  statuses.foldl
    (fun acc s =>
      if 0 < s.avg_speed ∧ 0 < s.vehicle_count then acc + s.vehicle_count else acc)
    0

/-- Embeds the `unique_vehicles` set of `flush`: the union of the `vehicles` id
lists of all buffered statuses of one zone, as a deduplicated list. -/
def uniqueVehicles (statuses : List ZoneVehicleCount) : List String :=
  (statuses.flatMap (fun s => s.vehicles)).dedup

/-- Lists every `(vehicle_id, type)` entry of the `vehicle_details` maps of the
buffered statuses of one zone, in buffer order. -/
def detailPairs (statuses : List ZoneVehicleCount) : List (String × String) :=
  statuses.flatMap (fun s => s.vehicle_details)

/-- Embeds the `unique_vehicles_by_type[t]` set of `flush`: the distinct vehicle
ids that were recorded with type label `t` in some buffered status of the zone. -/
def uniqueIdsOfType (statuses : List ZoneVehicleCount) (t : String) : List String :=
  (((detailPairs statuses).filter (fun p => p.2 == t)).map (fun p => p.1)).dedup

/-- Embeds the `vehicle_types={k: len(v) for k, v in unique_vehicles_by_type.items()}`
comprehension of `flush`. -/
def vehicleTypesBreakdown (statuses : List ZoneVehicleCount) : List (String × ℕ) :=
  ((detailPairs statuses).map (fun p => p.2)).dedup.map
    (fun t => (t, (uniqueIdsOfType statuses t).length))

/-- Embeds the body of the per-zone loop of `TrafficDataAggregator.flush` /
`AsyncTrafficDataAggregator._compute_aggregates`: builds the `TrafficData` record
for one zone from its buffered statuses (the code only reaches this body with a
nonempty `statuses` list, since `defaultdict` groups always hold at least one
entry and empty groups are skipped by `continue`). -/
def aggregateZone (zone_id : String) (statuses : List ZoneVehicleCount)
    (timestamp duration : ℚ) : TrafficData :=
  let counts := statuses.map (fun s => (s.vehicle_count : ℚ))
  let avg_density := counts.sum / (counts.length : ℚ)
  let occupancies := statuses.map (fun s => s.occupancy)
  let avg_occupancy := if occupancies.length ≠ 0 then occupancies.sum / (occupancies.length : ℚ) else 0
  let avg_speed :=
    if 0 < totalVehiclesWithSpeed statuses then
      totalSpeedSum statuses / (totalVehiclesWithSpeed statuses : ℚ)
    else 0
  let flow_rate_per_min := (uniqueVehicles statuses).length
  let car_count := (uniqueIdsOfType statuses "car").length
  let bus_count := (uniqueIdsOfType statuses "bus").length
  let truck_count := (uniqueIdsOfType statuses "truck").length
  let motorcycle_count := (uniqueIdsOfType statuses "motorcycle").length
  let head := statuses.headD default
  { timestamp := timestamp
    zone_id := zone_id
    camera_id := head.camera_id
    street_monitored := head.street_monitored
    duration_seconds := duration
    total_vehicles := flow_rate_per_min
    avg_density := avg_density
    avg_speed := avg_speed
    avg_occupancy := avg_occupancy
    flow_rate_per_min := flow_rate_per_min
    car_count := car_count
    bus_count := bus_count
    truck_count := truck_count
    motorcycle_count := motorcycle_count
    vehicle_types := vehicleTypesBreakdown statuses }

/-- Collects every `ZoneVehicleCount` of the buffered analyses, in buffer order
(the grouping loop of `flush` skips analyses with falsy `zones`; an empty list
contributes nothing here just the same). -/
def bufferZones (buffer : List FrameAnalysis) : List ZoneVehicleCount :=
  buffer.flatMap (fun a => a.zones)

/-- Zone ids in first-appearance order, embedding the `defaultdict` key order of
the `zone_stats` grouping in `flush` (Python dicts iterate in insertion order). -/
def zoneIdsOf (buffer : List FrameAnalysis) : List String :=
  ((bufferZones buffer).map (fun z => z.zone_id)).dedup

/-- Embeds `flush` / `_compute_aggregates` on a nonempty buffer: group the
buffered `ZoneVehicleCount` entries by `zone_id`, then build one `TrafficData`
per zone. -/
def flushResults (buffer : List FrameAnalysis) (timestamp duration : ℚ) :
    List TrafficData :=
  (zoneIdsOf buffer).map
    (fun zid =>
      aggregateZone zid ((bufferZones buffer).filter (fun z => z.zone_id == zid))
        timestamp duration)

/-! ### Zone counting (zone_counter.py) -/

/-- Configuration of one zone held by `ZoneCounter`: the polygon points and the
`{camera_id, street}` metadata (zone_counter.py `__init__` / `update_zone`). -/
structure ZoneDef where
  polygon : List (ℤ × ℤ)
  camera_id : String := "unknown"
  street : String := "unknown"
deriving Repr, DecidableEq

/-- Embeds `cv2.contourArea` on an integer polygon: half the absolute value of the
shoelace sum over the cyclically consecutive vertex pairs. `ZoneCounter` computes
this once per zone (at construction and at `update_zone`) and caches it in
`zone_areas`, so the cached area always equals `contourArea` of the current
polygon. -/
def contourArea (poly : List (ℤ × ℤ)) : ℚ :=
  (|((poly.zip (poly.rotate 1)).map
      (fun pq => pq.1.1 * pq.2.2 - pq.2.1 * pq.1.2)).sum| : ℤ) / 2

/-- Pixel area of a detection's bounding box, `(x2 - x1) * (y2 - y1)`, as summed
in the occupancy computation of `count_vehicles_in_zones`. -/
def bboxArea (v : DetectedVehicle) : ℚ :=
  ((v.bbox.2.2.1 - v.bbox.1) * (v.bbox.2.2.2 - v.bbox.2.1) : ℤ)

/-- Embeds the per-zone body of `ZoneCounter.count_vehicles_in_zones` for a
nonempty detection list. `trigger` stands for the external
`sv.PolygonZone.trigger` membership test (the supervision library checks the
bbox anchor point against the polygon); the zone area is the cached
`contourArea` of the polygon. -/
def countZone (trigger : ZoneDef → DetectedVehicle → Bool)
    (detections : List DetectedVehicle) (now : ℚ) (zone_id : String) (zd : ZoneDef) :
    ZoneVehicleCount :=
  let contained := detections.filter (trigger zd)
  let count := contained.length
  let speeds := contained.filterMap (fun v => v.speed)
  let avg_speed := if speeds.length ≠ 0 then speeds.sum / (speeds.length : ℚ) else 0
  let vehicle_ids := contained.map (fun v => v.id)
  let vehicle_details := contained.map (fun v => (v.id, v.type))
  let vehicle_types :=
    (contained.map (fun v => v.type)).dedup.map
      (fun t => (t, (contained.filter (fun v => v.type == t)).length))
  let zone_area := contourArea zd.polygon
  let occupancy :=
    if 0 < count then
      if 0 < zone_area then min ((contained.map bboxArea).sum / zone_area) 1 else 0
    else 0
  { zone_id := zone_id
    vehicle_count := count
    timestamp := now
    vehicles := vehicle_ids
    vehicle_details := vehicle_details
    avg_speed := avg_speed
    occupancy := occupancy
    vehicle_types := vehicle_types
    camera_id := zd.camera_id
    street_monitored := zd.street }

/-- Embeds `ZoneCounter.count_vehicles_in_zones`: with no detections, one default
record per configured zone (the early-return branch, whose dataclass defaults
leave `occupancy = 0`); otherwise one `countZone` record per configured zone. -/
def count_vehicles_in_zones (zones : List (String × ZoneDef))
    (trigger : ZoneDef → DetectedVehicle → Bool)
    (detections : List DetectedVehicle) (now : ℚ) : List ZoneVehicleCount :=
  if detections.isEmpty then
    zones.map
      (fun z =>
        { zone_id := z.1
          vehicle_count := 0
          camera_id := z.2.camera_id
          street_monitored := z.2.street })
  else
    zones.map (fun z => countZone trigger detections now z.1 z.2)

/-- Models the external `sv.PolygonZone.trigger` containment test with its
default BOTTOM_CENTER anchor, for an axis-aligned rectangular zone: the anchor
`((x1 + x2) / 2, y2)` of the bbox must lie within the coordinate range of the
polygon's vertices. Used to instantiate the `trigger` parameter in the square
zone scenario. -/
def rectAnchorTrigger (zd : ZoneDef) (v : DetectedVehicle) : Bool :=
  match (zd.polygon.map (fun p => p.1)).min?, (zd.polygon.map (fun p => p.1)).max?,
        (zd.polygon.map (fun p => p.2)).min?, (zd.polygon.map (fun p => p.2)).max? with
  | some xlo, some xhi, some ylo, some yhi =>
      decide (xlo ≤ (v.bbox.1 + v.bbox.2.2.1) / 2 ∧ (v.bbox.1 + v.bbox.2.2.1) / 2 ≤ xhi ∧
              ylo ≤ v.bbox.2.2.2 ∧ v.bbox.2.2.2 ≤ yhi)
  | _, _, _, _ => false

/-! ### Speed estimation (speed_estimator.py) -/

/-- Embeds the per-vehicle history update of `SimpleSpeedEstimator.estimate`:
append the current `(timestamp, bottom_center_y)` sample, then keep only the
samples with `current_time - t < 1.0`. -/
def speedHistoryUpdate (hist : List (ℚ × ℚ)) (t y : ℚ) : List (ℚ × ℚ) :=
  (hist ++ [(t, y)]).filter (fun s => t - s.1 < 1)

/-- Embeds the speed computation of `SimpleSpeedEstimator.estimate` on the
retained history: with at least 2 samples whose oldest-to-newest span exceeds
`0.1` s, `speed_kmh = (|Δy| / pixels_per_meter) / Δt * 3.6`; otherwise the
vehicle's speed field is left as it was (`none` on the freshly tracked
detection). -/
def speedFrom (pixels_per_meter : ℚ) (hist : List (ℚ × ℚ)) : Option ℚ :=
  if 2 ≤ hist.length then
    let a := hist.headD (0, 0)
    let b := hist.getLastD (0, 0)
    if 1/10 < b.1 - a.1 then
      some (|b.2 - a.2| / pixels_per_meter / (b.1 - a.1) * (18/5))
    else none
  else none

/-- One `estimate` step for one tracked vehicle: the updated history together
with the speed value written to the vehicle (`none` when the guard of the
computation branch fails). -/
def estimateUpdate (pixels_per_meter : ℚ) (hist : List (ℚ × ℚ)) (t y : ℚ) :
    List (ℚ × ℚ) × Option ℚ :=
  let h2 := speedHistoryUpdate hist t y
  (h2, speedFrom pixels_per_meter h2)

/-! ### Class stabilization (supervision_tracker.py) -/

/-- Embeds the class-history update of `SupervisionTracker.track`: append the
current raw class id, then `pop(0)` when the history exceeds 30 entries. -/
def classHistoryUpdate (hist : List ℕ) (c : ℕ) : List ℕ :=
  let h2 := hist ++ [c]
  if 30 < h2.length then h2.tail else h2

/-- Embeds `max(set(history), key=history.count)` of `SupervisionTracker.track`:
the first class (in first-occurrence order) whose occurrence count in the
history is maximal. Python iterates the set in an implementation-defined order,
so the tie-break between equally frequent classes is implementation-defined
(spec §9); whenever the mode is unique both orders return the same class, and
only mode-ness is proved below. -/
def stableClass (hist : List ℕ) : ℕ :=
  hist.dedup.foldl (fun best c => if hist.count best < hist.count c then c else best)
    (hist.dedup.headD 0)

/-- Embeds `self.id_to_name.get(stable_class_id, 'car')` of
`SupervisionTracker.track`, with `id_to_name` the inversion of the
`vehicle_classes` name → id map. -/
def idToName (vehicle_classes : List (String × ℕ)) (cid : ℕ) : String :=
  ((vehicle_classes.find? (fun p => p.2 == cid)).map (fun p => p.1)).getD "car"

/-! ### Frame pipeline (async_pipeline.py) -/

/-- Embeds the `Frame` dataclass of entities.py (the opaque pixel buffer is
irrelevant to every claim and is omitted). -/
structure Frame where
  id : ℕ
  timestamp : ℚ
deriving Repr, DecidableEq

/-- Embeds the catch-up decision of `AsyncVisionPipeline._processing_loop` as a
function of the computed lag and the skip counter: when `lag > 1.5` the counter
increments and the frame is processed iff the counter is divisible by 2 (for
`lag ≤ 2.5`) or by 3 (for `lag > 2.5`); otherwise every frame is processed and
the counter is untouched. Returns `(should_process, new_counter)`. -/
def catchUpStep (lag : ℚ) (skipped_counter : ℕ) : Bool × ℕ :=
  if 3/2 < lag then
    if lag ≤ 5/2 then (decide ((skipped_counter + 1) % 2 = 0), skipped_counter + 1)
    else (decide ((skipped_counter + 1) % 3 = 0), skipped_counter + 1)
  else (true, skipped_counter)

/-- Sequentialization of `_processing_loop`: the queued frames arrive in FIFO
order, each paired with the value of the shared `_latest_capture_ts` that the
loop observes when popping it (an arbitrary interleaving of the capture
thread's writes); `lag = observed_ts - frame.timestamp` drives `catchUpStep`,
skipped frames are dropped (`continue`), and accepted frames are emitted in
order into the FIFO `result_queue`. The returned list is the sequence of
processed frames, which `run()` then yields one by one in the same order. -/
def processingLoop : List (ℚ × Frame) → ℕ → List Frame
  | [], _ => []
  | (obs, f) :: rest, skipped =>
    if (catchUpStep (obs - f.timestamp) skipped).1 then
      f :: processingLoop rest (catchUpStep (obs - f.timestamp) skipped).2
    else processingLoop rest (catchUpStep (obs - f.timestamp) skipped).2

/-- Lifecycle state of `AsyncVisionPipeline` relevant to `stop()`: the shared
stop event and the number of `source.release()` calls performed so far. -/
structure PipelineLifecycle where
  stopFlag : Bool
  releaseCalls : ℕ
deriving Repr, DecidableEq

/-- Freshly started pipeline: stop event clear, source not yet released. -/
def initialPipeline : PipelineLifecycle :=
  { stopFlag := false, releaseCalls := 0 }

/-- Embeds the state effect of `AsyncVisionPipeline.stop()`: it sets
`_stop_event`, joins both workers with a bounded timeout (no state effect), and
then calls `self.source.release()` unconditionally — there is no guard
suppressing the release on a repeated call. -/
def pipelineStop (st : PipelineLifecycle) : PipelineLifecycle :=
  { stopFlag := true, releaseCalls := st.releaseCalls + 1 }

/-! ### Broadcaster (realtime_broadcaster.py) -/

/-- One subscriber's bounded `asyncio.Queue`: its capacity and current items in
FIFO order. -/
structure SubQueue (α : Type) where
  capacity : ℕ
  items : List α
deriving Repr, DecidableEq

/-- Embeds `queue.put_nowait(data)` under the `except asyncio.QueueFull` handler
of `RealtimeBroadcaster.broadcast`: append when there is room, otherwise drop
this single delivery and leave the queue untouched. -/
def putNonBlocking {α : Type} (q : SubQueue α) (d : α) : SubQueue α :=
  if q.items.length < q.capacity then { q with items := q.items ++ [d] } else q

/-- State of `RealtimeBroadcaster`: the `_latest_state` cache (an association
list with latest-write-first lookup, embedding dict assignment) and the
`_subscribers` map from camera id to the current subscriber queues. -/
structure BroadcasterState (α : Type) where
  latest : List (String × α)
  subscribers : List (String × List (SubQueue α))
deriving Repr, DecidableEq

/-- Lookup in the latest-state cache (most recent write wins). -/
def cacheLookup {α : Type} (latest : List (String × α)) (camera_id : String) :
    Option α :=
  ((latest.find? (fun p => p.1 == camera_id)).map (fun p => p.2))

/-- Embeds `RealtimeBroadcaster.broadcast(camera_id, analysis_data)`: update the
`_latest_state` cache for the key, then perform a non-blocking put into every
current subscriber queue of that camera; queues of other cameras are untouched. -/
def broadcast {α : Type} (st : BroadcasterState α) (camera_id : String) (d : α) :
    BroadcasterState α :=
  { latest := (camera_id, d) :: st.latest
    subscribers :=
      st.subscribers.map
        (fun p =>
          if p.1 == camera_id then (p.1, p.2.map (fun q => putNonBlocking q d))
          else p) }

/-! ## Concrete inputs used by the theorems -/

/-- Aggregation window in which the single vehicle id "1" in zone "zone1" is
reported as car (frame 1), truck (frame 2) and car again (frame 3) — the exact
input of the repository's own test
tests/vision/unit/test_aggregation_consistency.py::test_aggregation_consistency. -/
def flickerBuffer : List FrameAnalysis :=
  [ { frame_id := 1, timestamp := 100, vehicles := [], total_count := 1,
      zones := [{ zone_id := "zone1", vehicle_count := 1, timestamp := 100,
                  vehicles := ["1"], vehicle_details := [("1", "car")],
                  camera_id := "cam1", street_monitored := "street1" }] },
    { frame_id := 2, timestamp := 101, vehicles := [], total_count := 1,
      zones := [{ zone_id := "zone1", vehicle_count := 1, timestamp := 101,
                  vehicles := ["1"], vehicle_details := [("1", "truck")],
                  camera_id := "cam1", street_monitored := "street1" }] },
    { frame_id := 3, timestamp := 102, vehicles := [], total_count := 1,
      zones := [{ zone_id := "zone1", vehicle_count := 1, timestamp := 102,
                  vehicles := ["1"], vehicle_details := [("1", "car")],
                  camera_id := "cam1", street_monitored := "street1" }] } ]

/-- Aggregation window in which vehicle id "7" in zone "z2" has the observed
type-label history car, car, truck — majority vote over its observations would
resolve it to car (so car_count 1, truck_count 0). -/
def majorityBuffer : List FrameAnalysis :=
  [ { frame_id := 1, timestamp := 200, vehicles := [], total_count := 1,
      zones := [{ zone_id := "z2", vehicle_count := 1, timestamp := 200,
                  vehicles := ["7"], vehicle_details := [("7", "car")],
                  camera_id := "cam2", street_monitored := "street2" }] },
    { frame_id := 2, timestamp := 201, vehicles := [], total_count := 1,
      zones := [{ zone_id := "z2", vehicle_count := 1, timestamp := 201,
                  vehicles := ["7"], vehicle_details := [("7", "car")],
                  camera_id := "cam2", street_monitored := "street2" }] },
    { frame_id := 3, timestamp := 202, vehicles := [], total_count := 1,
      zones := [{ zone_id := "z2", vehicle_count := 1, timestamp := 202,
                  vehicles := ["7"], vehicle_details := [("7", "truck")],
                  camera_id := "cam2", street_monitored := "street2" }] } ]

/-- Scenario zone of the spec: the axis-aligned square (0,0)–(100,100), whose
cached `contourArea` is 10000. -/
def squareZone : ZoneDef :=
  { polygon := [(0, 0), (100, 0), (100, 100), (0, 100)],
    camera_id := "cam1", street := "main" }

/-- Scenario vehicle of the spec: bbox (10,10,50,50), area 1600, fully inside
the square zone. -/
def demoVehicle : DetectedVehicle :=
  { id := "5", type := "car", confidence := 9/10, bbox := (10, 10, 50, 50),
    timestamp := 0 }

/-- The `ZoneVehicleCount` that `count_vehicles_in_zones` produces for
`squareZone` with the single detection `demoVehicle`. -/
def demoZoneOutput : ZoneVehicleCount :=
  { zone_id := "z", vehicle_count := 1, timestamp := 0, vehicles := ["5"],
    vehicle_details := [("5", "car")], avg_speed := 0, occupancy := 16/100,
    vehicle_types := [("car", 1)], camera_id := "cam1", street_monitored := "main" }

/-! ## C1 and C2: unique-vehicle type resolution in the aggregator -/

/-- C1: the claimed invariant `car_count + bus_count + truck_count +
motorcycle_count = total_vehicles` (each id counted under exactly one type
after conflict resolution) fails on the code. On `flickerBuffer` — the
repository's own test input — the aggregator adds id "1" to both the car set
and the truck set, so the flush persists `total_vehicles = flow_rate_per_min =
1` (the distinct-id part of the claim does hold here) but `car_count = 1` and
`truck_count = 1`, whose sum 2 ≠ 1. The repository's test
`test_aggregation_consistency` asserts `truck_count = 0` and sum = total, so
the code contradicts its own test suite. -/
theorem c1_flush_type_counts_exceed_total :
    (flushResults flickerBuffer 103 3).map
        (fun d => (d.total_vehicles, d.flow_rate_per_min, d.car_count, d.bus_count,
                   d.truck_count, d.motorcycle_count)) = [(1, 1, 1, 0, 1, 0)] ∧
    1 + 0 + 1 + 0 ≠ 1 := ⟨rfl, by decide⟩

/-- C2: the aggregator performs no majority vote. On `majorityBuffer`, id "7"
has observed type labels car, car, truck; majority vote would resolve it to
car and tally `car_count = 1, truck_count = 0`, but
`flush`/`_compute_aggregates` count the id once under every label it was
observed with, yielding `car_count = 1` and `truck_count = 1`. The
repository's test `test_aggregation_consistency` documents the majority-vote
intent, so the code contradicts its own test suite. -/
theorem c2_flush_has_no_majority_vote :
    (flushResults majorityBuffer 203 3).map
        (fun d => (d.total_vehicles, d.car_count, d.truck_count)) = [(1, 1, 1)] ∧
    (1, 1, 1) ≠ (1, 1, 0) := ⟨rfl, by decide⟩

/-! ## C3: zone occupancy -/

/-- Occupancy of `countZone` as a single `if`: the value the code computes
inside the `if count > 0` / `if zone_area > 0` nest, and 0 on every other
path. -/
lemma countZone_occupancy_def (trigger : ZoneDef → DetectedVehicle → Bool)
    (detections : List DetectedVehicle) (now : ℚ) (zid : String) (zd : ZoneDef) :
    (countZone trigger detections now zid zd).occupancy =
      (if 0 < (detections.filter (trigger zd)).length then
        (if 0 < contourArea zd.polygon then
          min (((detections.filter (trigger zd)).map bboxArea).sum / contourArea zd.polygon) 1
        else 0)
      else 0) := rfl

/-- C3: for every `ZoneVehicleCount` produced by `count_vehicles_in_zones`
on detections with well-formed bboxes (`x1 ≤ x2`, `y1 ≤ y2`), the occupancy
lies in [0, 1]; moreover it equals
`min(Σ bbox areas of contained vehicles / cached zone area, 1)` exactly when
the zone area is positive and some vehicle is contained, and 0 when the zone
area is zero (`contourArea` is never negative) or no vehicle is contained. -/
theorem c3_occupancy_in_unit_interval (zones : List (String × ZoneDef))
    (trigger : ZoneDef → DetectedVehicle → Bool)
    (detections : List DetectedVehicle) (now : ℚ)
    (hwf : ∀ d ∈ detections, d.bbox.1 ≤ d.bbox.2.2.1 ∧ d.bbox.2.1 ≤ d.bbox.2.2.2) :
    (∀ z ∈ count_vehicles_in_zones zones trigger detections now,
        0 ≤ z.occupancy ∧ z.occupancy ≤ 1) ∧
    (∀ zid zd, (countZone trigger detections now zid zd).occupancy =
        if (detections.filter (trigger zd)).length ≠ 0 ∧ 0 < contourArea zd.polygon then
          min (((detections.filter (trigger zd)).map bboxArea).sum / contourArea zd.polygon) 1
        else 0) := by
  have hsum : ∀ zd : ZoneDef, 0 ≤ ((detections.filter (trigger zd)).map bboxArea).sum := by
    intro zd
    apply List.sum_nonneg
    intro q hq
    rcases List.mem_map.mp hq with ⟨v, hv, rfl⟩
    have hv2 := hwf v (List.mem_of_mem_filter hv)
    have hz : (0 : ℤ) ≤ (v.bbox.2.2.1 - v.bbox.1) * (v.bbox.2.2.2 - v.bbox.2.1) :=
      mul_nonneg (by omega) (by omega)
    unfold bboxArea
    exact_mod_cast hz
  have hbound : ∀ zid zd, 0 ≤ (countZone trigger detections now zid zd).occupancy ∧
      (countZone trigger detections now zid zd).occupancy ≤ 1 := by
    intro zid zd
    rw [countZone_occupancy_def]
    split_ifs with h1 h2
    · exact ⟨le_min (div_nonneg (hsum zd) h2.le) zero_le_one, min_le_right _ _⟩
    · norm_num
    · norm_num
  refine ⟨?_, ?_⟩
  · intro z hz
    by_cases hd : detections.isEmpty
    · rw [count_vehicles_in_zones, if_pos hd] at hz
      rcases List.mem_map.mp hz with ⟨p, hp, rfl⟩
      exact ⟨le_refl _, zero_le_one⟩
    · rw [count_vehicles_in_zones, if_neg hd] at hz
      rcases List.mem_map.mp hz with ⟨p, hp, rfl⟩
      exact hbound p.1 p.2
  · intro zid zd
    rw [countZone_occupancy_def]
    by_cases h1 : (detections.filter (trigger zd)).length = 0
    · simp [h1]
    · by_cases h2 : 0 < contourArea zd.polygon
      · rw [if_pos (by omega), if_pos h2, if_pos ⟨h1, h2⟩]
      · rw [if_pos (by omega), if_neg h2, if_neg (by tauto)]

/-- C3 witness: the spec's square-zone scenario. The square (0,0)–(100,100)
(cached area 10000) with one fully contained bbox (10,10,50,50) (area 1600)
yields `vehicle_count = 1` and `occupancy = 0.16`, and that occupancy is within
[0, 1] by the theorem. -/
theorem c3_occupancy_witness :
    (∀ d ∈ [demoVehicle], d.bbox.1 ≤ d.bbox.2.2.1 ∧ d.bbox.2.1 ≤ d.bbox.2.2.2) ∧
    count_vehicles_in_zones [("z", squareZone)] rectAnchorTrigger [demoVehicle] 0 =
      [demoZoneOutput] ∧
    (0 ≤ demoZoneOutput.occupancy ∧ demoZoneOutput.occupancy ≤ 1) ∧
    demoZoneOutput.vehicle_count = 1 ∧ demoZoneOutput.occupancy = 16/100 := by
  have hwf : ∀ d ∈ [demoVehicle], d.bbox.1 ≤ d.bbox.2.2.1 ∧ d.bbox.2.1 ≤ d.bbox.2.2.2 := by
    decide
  have hout : count_vehicles_in_zones [("z", squareZone)] rectAnchorTrigger [demoVehicle] 0 =
      [demoZoneOutput] := by
    norm_num [count_vehicles_in_zones, countZone, squareZone, rectAnchorTrigger, demoVehicle,
      demoZoneOutput, contourArea, bboxArea, List.filter_cons, List.filter_nil,
      decide_eq_true_eq, min_def, List.rotate_cons_succ, List.rotate_zero,
      ZoneVehicleCount.mk.injEq]
  refine ⟨hwf, hout, ?_, rfl, rfl⟩
  exact (c3_occupancy_in_unit_interval [("z", squareZone)] rectAnchorTrigger
      [demoVehicle] 0 hwf).1 demoZoneOutput (by rw [hout]; exact List.mem_singleton.mpr rfl)

/-! ## C4 and C5: processing-loop ordering and catch-up skipping -/

/-- With lag at most 1.5 s the frame is processed and the skip counter is
untouched. -/
lemma catchUpStep_low (lag : ℚ) (s : ℕ) (h : lag ≤ 3/2) :
    catchUpStep lag s = (true, s) := by
  rw [catchUpStep, if_neg (not_lt.mpr h)]

/-- With 1.5 s < lag ≤ 2.5 s the counter increments and the frame is processed
iff it is divisible by 2. -/
lemma catchUpStep_mid (lag : ℚ) (s : ℕ) (h1 : 3/2 < lag) (h2 : lag ≤ 5/2) :
    catchUpStep lag s = (decide ((s + 1) % 2 = 0), s + 1) := by
  rw [catchUpStep, if_pos h1, if_pos h2]

/-- With lag > 2.5 s the counter increments and the frame is processed iff it
is divisible by 3. -/
lemma catchUpStep_high (lag : ℚ) (s : ℕ) (h : 5/2 < lag) :
    catchUpStep lag s = (decide ((s + 1) % 3 = 0), s + 1) := by
  rw [catchUpStep, if_pos (by linarith), if_neg (by linarith)]

/-- The processed-frame stream is a sublist of the queued-frame stream: catch-up
skipping drops frames without analysis but never reorders or duplicates. -/
lemma processingLoop_sublist (inputs : List (ℚ × Frame)) : ∀ s : ℕ,
    (processingLoop inputs s).Sublist (inputs.map (fun p => p.2)) := by
  induction inputs with
  | nil => intro s; exact List.Sublist.refl _
  | cons p rest ih =>
    intro s
    rcases p with ⟨obs, f⟩
    rw [List.map_cons]
    by_cases hb : (catchUpStep (obs - f.timestamp) s).1 = true
    · rw [processingLoop, if_pos hb]
      exact (ih _).cons₂ f
    · rw [processingLoop, if_neg hb]
      exact (ih _).cons f

/-- C4: over any interleaving of observed capture timestamps (the racy reads of
`_latest_capture_ts`), the frames the processing loop emits — and hence the
`(frame, analysis)` pairs `run()` yields, since both `frame_queue` and
`result_queue` are FIFO with a single producer and a single consumer — form a
sublist of the queued frames (no reordering, no duplication, gaps only where
skipping dropped frames), and their ids are strictly increasing whenever the
source's ids are. -/
theorem c4_delivered_ids_strictly_increasing (inputs : List (ℚ × Frame)) (s : ℕ)
    (hmono : (inputs.map (fun p => p.2.id)).Pairwise (· < ·)) :
    (processingLoop inputs s).Sublist (inputs.map (fun p => p.2)) ∧
    ((processingLoop inputs s).map Frame.id).Pairwise (· < ·) := by
  refine ⟨processingLoop_sublist inputs s, ?_⟩
  have h1 : ((processingLoop inputs s).map Frame.id).Sublist
      ((inputs.map (fun p => p.2)).map Frame.id) :=
    (processingLoop_sublist inputs s).map Frame.id
  rw [List.map_map] at h1
  have hmono2 : (inputs.map (Frame.id ∘ fun p => p.2)).Pairwise (· < ·) := by
    simpa [Function.comp] using hmono
  exact hmono2.sublist h1

/-- C4 witness: two queued frames with ids 1, 2 and no lag are both delivered,
in strictly increasing id order. -/
theorem c4_delivered_ids_witness :
    (([((0 : ℚ), ({ id := 1, timestamp := 0 } : Frame)),
       (0, { id := 2, timestamp := 0 })].map (fun p => p.2.id)).Pairwise (· < ·)) ∧
    ((processingLoop [((0 : ℚ), ({ id := 1, timestamp := 0 } : Frame)),
       (0, { id := 2, timestamp := 0 })] 0).map Frame.id).Pairwise (· < ·) :=
  ⟨by decide,
   (c4_delivered_ids_strictly_increasing
      [((0 : ℚ), ({ id := 1, timestamp := 0 } : Frame)),
       (0, { id := 2, timestamp := 0 })] 0 (by decide)).2⟩

/-- C5: the catch-up decision as a function of lag and skip counter: lag ≤ 1.5 s
processes every frame without touching the counter; 1.5 s < lag ≤ 2.5 s
increments the counter and processes exactly when it is divisible by 2 (one of
every 2 consecutive such frames); lag > 2.5 s increments and processes exactly
when divisible by 3 (one of every 3 consecutive such frames); and skipped
frames are dropped without reordering (the emitted frames are a sublist of the
queued ones). -/
theorem c5_catch_up_policy (lag : ℚ) (s : ℕ) (p1 p2 p3 : ℚ × Frame) :
    (lag ≤ 3/2 → catchUpStep lag s = (true, s)) ∧
    (3/2 < lag → lag ≤ 5/2 → catchUpStep lag s = (decide ((s + 1) % 2 = 0), s + 1)) ∧
    (5/2 < lag → catchUpStep lag s = (decide ((s + 1) % 3 = 0), s + 1)) ∧
    (5/2 < p1.1 - p1.2.timestamp → 5/2 < p2.1 - p2.2.timestamp →
      5/2 < p3.1 - p3.2.timestamp → (processingLoop [p1, p2, p3] s).length = 1) ∧
    (3/2 < p1.1 - p1.2.timestamp → p1.1 - p1.2.timestamp ≤ 5/2 →
      3/2 < p2.1 - p2.2.timestamp → p2.1 - p2.2.timestamp ≤ 5/2 →
      (processingLoop [p1, p2] s).length = 1) ∧
    (processingLoop [p1, p2, p3] s).Sublist ([p1, p2, p3].map (fun p => p.2)) := by
  refine ⟨catchUpStep_low lag s, catchUpStep_mid lag s, catchUpStep_high lag s,
    ?_, ?_, processingLoop_sublist [p1, p2, p3] s⟩
  · intro h1 h2 h3
    rcases p1 with ⟨o1, f1⟩; rcases p2 with ⟨o2, f2⟩; rcases p3 with ⟨o3, f3⟩
    by_cases m1 : (s + 1) % 3 = 0 <;> by_cases m2 : (s + 1 + 1) % 3 = 0 <;>
      by_cases m3 : (s + 1 + 1 + 1) % 3 = 0 <;>
      simp [processingLoop, catchUpStep_high _ _ h1, catchUpStep_high _ _ h2,
        catchUpStep_high _ _ h3, m1, m2, m3] <;>
      omega
  · intro h1 h2 h3 h4
    rcases p1 with ⟨o1, f1⟩; rcases p2 with ⟨o2, f2⟩
    by_cases m1 : (s + 1) % 2 = 0 <;> by_cases m2 : (s + 1 + 1) % 2 = 0 <;>
      simp [processingLoop, catchUpStep_mid _ _ h1 h2, catchUpStep_mid _ _ h3 h4,
        m1, m2] <;>
      omega

/-- C5 witness: three queued frames with sustained lag 3 s > 2.5 s starting from
a zero skip counter: exactly one of the three is processed. -/
theorem c5_catch_up_witness :
    ((5 : ℚ)/2 < 3 - 0) ∧
    (processingLoop [((3 : ℚ), ({ id := 1, timestamp := 0 } : Frame)),
      (3, { id := 2, timestamp := 0 }), (3, { id := 3, timestamp := 0 })] 0).length = 1 := by
  refine ⟨by norm_num, ?_⟩
  exact (c5_catch_up_policy 3 0 ((3 : ℚ), ({ id := 1, timestamp := 0 } : Frame))
      (3, { id := 2, timestamp := 0 }) (3, { id := 3, timestamp := 0 })).2.2.2.1
    (by norm_num) (by norm_num) (by norm_num)

/-! ## C6: vehicle-count-weighted average speed -/

/-- Folding an `if p then acc + f s else acc` accumulator over a list equals the
starting value plus the sum of `f` over the elements satisfying `p` — the shape
of the `total_speed_sum` / `total_vehicles_with_speed` loops of `flush`. -/
lemma foldl_if_add {M : Type} [AddCommMonoid M] (f : ZoneVehicleCount → M)
    (p : ZoneVehicleCount → Prop) [DecidablePred p] :
    ∀ (l : List ZoneVehicleCount) (a : M),
      l.foldl (fun acc s => if p s then acc + f s else acc) a =
        a + ((l.filter (fun s => decide (p s))).map f).sum
  | [], a => by simp
  | s :: l, a => by
    by_cases h : p s
    · simp [List.foldl_cons, h, foldl_if_add f p l (a + f s), List.filter_cons, add_assoc]
    · simp [List.foldl_cons, h, foldl_if_add f p l a, List.filter_cons]

/-- Example frames of the spec scenario: `(avg_speed = 10, vehicle_count = 2)`
and `(avg_speed = 20, vehicle_count = 1)` in the same zone. -/
def stFrameA : ZoneVehicleCount := { zone_id := "z1", vehicle_count := 2, avg_speed := 10 }

/-- Second frame of the weighted-speed scenario. -/
def stFrameB : ZoneVehicleCount := { zone_id := "z1", vehicle_count := 1, avg_speed := 20 }

/-- C6: for every zone of an aggregation window, the aggregated `avg_speed`
equals `Σ(avg_speed_i * vehicle_count_i) / Σ(vehicle_count_i)` over exactly the
buffered frames whose `avg_speed` and `vehicle_count` are both nonzero, and 0
when no frame qualifies. The code tests `avg_speed > 0`, which coincides with
`avg_speed ≠ 0` because every buffered `avg_speed` is a mean of nonnegative
speeds — captured by the `hnn` hypothesis. -/
theorem c6_weighted_average_speed (zone_id : String) (statuses : List ZoneVehicleCount)
    (ts dur : ℚ) (hnn : ∀ s ∈ statuses, 0 ≤ s.avg_speed) :
    (aggregateZone zone_id statuses ts dur).avg_speed =
      if ((statuses.filter (fun s => decide (s.avg_speed ≠ 0 ∧ s.vehicle_count ≠ 0))).map
            (fun s => (s.vehicle_count : ℚ))).sum = 0 then 0
      else ((statuses.filter (fun s => decide (s.avg_speed ≠ 0 ∧ s.vehicle_count ≠ 0))).map
              (fun s => s.avg_speed * (s.vehicle_count : ℚ))).sum /
           ((statuses.filter (fun s => decide (s.avg_speed ≠ 0 ∧ s.vehicle_count ≠ 0))).map
              (fun s => (s.vehicle_count : ℚ))).sum := by
  have hq : statuses.filter (fun s => decide (s.avg_speed ≠ 0 ∧ s.vehicle_count ≠ 0)) =
      statuses.filter (fun s => decide (0 < s.avg_speed ∧ 0 < s.vehicle_count)) := by
    apply List.filter_congr
    intro x hx
    have hx0 := hnn x hx
    simp only [decide_eq_decide]
    constructor
    · rintro ⟨h1, h2⟩
      exact ⟨lt_of_le_of_ne hx0 (Ne.symm h1), Nat.pos_of_ne_zero h2⟩
    · rintro ⟨h1, h2⟩
      exact ⟨ne_of_gt h1, Nat.pos_iff_ne_zero.mp h2⟩
  rw [hq]
  have hlhs : (aggregateZone zone_id statuses ts dur).avg_speed =
      (if 0 < totalVehiclesWithSpeed statuses then
        totalSpeedSum statuses / (totalVehiclesWithSpeed statuses : ℚ) else 0) := rfl
  rw [hlhs]
  have hnum : totalSpeedSum statuses =
      ((statuses.filter (fun s => decide (0 < s.avg_speed ∧ 0 < s.vehicle_count))).map
        (fun s => s.avg_speed * (s.vehicle_count : ℚ))).sum := by
    simpa using foldl_if_add (fun s => s.avg_speed * (s.vehicle_count : ℚ))
      (fun s => 0 < s.avg_speed ∧ 0 < s.vehicle_count) statuses 0
  have hden : totalVehiclesWithSpeed statuses =
      ((statuses.filter (fun s => decide (0 < s.avg_speed ∧ 0 < s.vehicle_count))).map
        (fun s => s.vehicle_count)).sum := by
    simpa using foldl_if_add (fun s => s.vehicle_count)
      (fun s => 0 < s.avg_speed ∧ 0 < s.vehicle_count) statuses 0
  have hcast : ((totalVehiclesWithSpeed statuses : ℕ) : ℚ) =
      ((statuses.filter (fun s => decide (0 < s.avg_speed ∧ 0 < s.vehicle_count))).map
        (fun s => (s.vehicle_count : ℚ))).sum := by
    rw [hden, Nat.cast_list_sum, List.map_map]
    rfl
  by_cases hz : totalVehiclesWithSpeed statuses = 0
  · rw [if_neg (by omega), if_pos (by rw [← hcast, hz, Nat.cast_zero])]
  · rw [if_pos (Nat.pos_of_ne_zero hz), if_neg (by rw [← hcast]; exact_mod_cast hz),
      hnum, hcast]

/-- C6 witness: the spec scenario — frames `(10, 2)` and `(20, 1)` aggregate to
`avg_speed = (10*2 + 20*1) / 3 = 40/3 ≈ 13.33`. -/
theorem c6_weighted_average_speed_witness :
    (∀ s ∈ [stFrameA, stFrameB], 0 ≤ s.avg_speed) ∧
    (aggregateZone "z1" [stFrameA, stFrameB] 100 60).avg_speed = 40/3 := by
  have hnn : ∀ s ∈ [stFrameA, stFrameB], 0 ≤ s.avg_speed := by
    norm_num [stFrameA, stFrameB]
  refine ⟨hnn, ?_⟩
  rw [c6_weighted_average_speed "z1" [stFrameA, stFrameB] 100 60 hnn]
  norm_num [stFrameA, stFrameB, List.filter_cons, List.filter_nil, decide_eq_true_eq]

/-! ## C7: speed estimator -/

/-- C7 counterexample: two samples 0.05 s apart. After the second
`estimate` update the retained history holds 2 samples, yet the vehicle's
speed is still `none`, because the code only computes a speed when the
oldest-to-newest span exceeds 0.1 s (`if time_diff > 0.1`) — refuting
"whenever at least 2 samples remain the vehicle's speed is set". -/
theorem c7_two_close_samples_leave_speed_null :
    (estimateUpdate 10 ((estimateUpdate 10 [] 0 0).1) (1/20) 5).1.length = 2 ∧
    (estimateUpdate 10 ((estimateUpdate 10 [] 0 0).1) (1/20) 5).2 = none := by
  norm_num [estimateUpdate, speedHistoryUpdate, speedFrom, List.filter_cons,
    List.filter_nil, decide_eq_true_eq]

/-- C7 (amended): on each update the current `(timestamp, bottom_center_y)`
sample is appended and exactly the samples with age < 1 s are retained; the
speed is set to `(|Δy| / pixels_per_meter) / Δt * 3.6` from the oldest and
newest retained samples whenever at least 2 samples remain AND their
oldest-to-newest span exceeds 0.1 s; otherwise (fewer than 2 samples, or a
span of at most 0.1 s) the speed stays `none`. -/
theorem c7_speed_update_characterization (ppm : ℚ) (hist : List (ℚ × ℚ)) (t y : ℚ) :
    (∀ s, s ∈ (estimateUpdate ppm hist t y).1 ↔
        (s ∈ hist ∨ s = (t, y)) ∧ t - s.1 < 1) ∧
    ((estimateUpdate ppm hist t y).1.length < 2 → (estimateUpdate ppm hist t y).2 = none) ∧
    (∀ a b : ℚ × ℚ, (estimateUpdate ppm hist t y).1.headD (0, 0) = a →
        (estimateUpdate ppm hist t y).1.getLastD (0, 0) = b →
        2 ≤ (estimateUpdate ppm hist t y).1.length →
        (1/10 < b.1 - a.1 →
          (estimateUpdate ppm hist t y).2 = some (|b.2 - a.2| / ppm / (b.1 - a.1) * (18/5))) ∧
        (b.1 - a.1 ≤ 1/10 → (estimateUpdate ppm hist t y).2 = none)) := by
  refine ⟨?_, ?_, ?_⟩
  · intro s
    simp only [estimateUpdate, speedHistoryUpdate, List.mem_filter, List.mem_append,
      List.mem_singleton, decide_eq_true_eq]
  · intro hlt
    show speedFrom ppm (speedHistoryUpdate hist t y) = none
    have hl : (speedHistoryUpdate hist t y).length < 2 := hlt
    simp only [speedFrom]
    rw [if_neg (by omega)]
  · intro a b ha hb hlen
    replace ha : (speedHistoryUpdate hist t y).headD (0, 0) = a := ha
    replace hb : (speedHistoryUpdate hist t y).getLastD (0, 0) = b := hb
    replace hlen : 2 ≤ (speedHistoryUpdate hist t y).length := hlen
    constructor
    · intro hspan
      show speedFrom ppm (speedHistoryUpdate hist t y) = _
      simp only [speedFrom]
      rw [if_pos hlen, ha, hb, if_pos hspan]
    · intro hspan
      show speedFrom ppm (speedHistoryUpdate hist t y) = none
      simp only [speedFrom]
      rw [if_pos hlen, ha, hb, if_neg (by linarith)]

/-- C7 witness: two samples 0.5 s apart, `pixels_per_meter = 10`: the speed is
set to `|7 - 0| / 10 / (1/2) * 3.6 = 126/25` km/h. -/
theorem c7_speed_update_witness :
    (estimateUpdate 10 [(0, 0)] (1/2) 7).2 = some (126/25) := by
  have h := ((c7_speed_update_characterization 10 [(0, 0)] (1/2) 7).2.2
      ((0 : ℚ), (0 : ℚ)) ((1/2 : ℚ), (7 : ℚ))
      (by norm_num [estimateUpdate, speedHistoryUpdate, List.filter_cons,
            List.filter_nil, decide_eq_true_eq])
      (by norm_num [estimateUpdate, speedHistoryUpdate, List.filter_cons,
            List.filter_nil, decide_eq_true_eq])
      (by norm_num [estimateUpdate, speedHistoryUpdate, List.filter_cons,
            List.filter_nil, decide_eq_true_eq])).1 (by norm_num)
  rw [h]; norm_num

/-! ## C10: pipeline stop and source release -/

/-- C10 counterexample: `stop()` invoked twice — once explicitly and once by
`run()`'s cleanup — performs `source.release()` twice, not exactly once:
`AsyncVisionPipeline.stop` calls `self.source.release()` unconditionally, with
no guard against repetition. -/
theorem c10_double_stop_releases_twice :
    (pipelineStop (pipelineStop initialPipeline)).releaseCalls = 2 ∧
    (pipelineStop (pipelineStop initialPipeline)).releaseCalls ≠ 1 := by decide

/-- C10 (amended): every call to `stop()` sets the stop flag (so flag-setting
is idempotent) and performs `source.release()` exactly once per call; over an
execution with `n` invocations of `stop()` the source is released exactly `n`
times, hence exactly once precisely when `stop()` runs once. -/
theorem c10_stop_releases_once_per_call (st : PipelineLifecycle) :
    (pipelineStop st).stopFlag = true ∧
    (pipelineStop (pipelineStop st)).stopFlag = (pipelineStop st).stopFlag ∧
    (pipelineStop st).releaseCalls = st.releaseCalls + 1 ∧
    ∀ n : ℕ, (pipelineStop^[n] initialPipeline).releaseCalls = n := by
  refine ⟨rfl, rfl, rfl, ?_⟩
  intro n
  induction n with
  | zero => rfl
  | succ k ih => rw [Function.iterate_succ_apply']; simp [pipelineStop, ih]

/-! ## C8: tracker class stabilization -/

/-- The running best of the `max(set(history), key=history.count)` fold never
has a smaller count than its starting value. -/
lemma foldl_maxcount_ge_init (hist : List ℕ) (l : List ℕ) :
    ∀ b : ℕ, hist.count b ≤
      hist.count (l.foldl (fun best c => if hist.count best < hist.count c then c else best) b) := by
  induction l with
  | nil => intro b; exact le_refl _
  | cons c l ih =>
    intro b
    rw [List.foldl_cons]
    rcases lt_or_ge (hist.count b) (hist.count c) with h | h
    · rw [if_pos h]
      exact le_trans h.le (ih c)
    · rw [if_neg (not_lt.mpr h)]
      exact ih b

/-- The result of the `max(set(history), key=history.count)` fold has a count
at least that of every candidate it scanned. -/
lemma foldl_maxcount_ge_mem (hist : List ℕ) (l : List ℕ) :
    ∀ b : ℕ, ∀ c ∈ l, hist.count c ≤
      hist.count (l.foldl (fun best c => if hist.count best < hist.count c then c else best) b) := by
  induction l with
  | nil => intro b c hc; simp at hc
  | cons a l ih =>
    intro b c hc
    rw [List.foldl_cons]
    rcases List.mem_cons.mp hc with rfl | hc2
    · rcases lt_or_ge (hist.count b) (hist.count c) with h | h
      · rw [if_pos h]
        exact foldl_maxcount_ge_init hist l c
      · rw [if_neg (not_lt.mpr h)]
        exact le_trans h (foldl_maxcount_ge_init hist l b)
    · exact ih _ c hc2

/-- The stable class is a mode of the history: no class occurs more often. -/
lemma stableClass_mode (hist : List ℕ) (k : ℕ) :
    hist.count k ≤ hist.count (stableClass hist) := by
  by_cases hk : k ∈ hist
  · exact foldl_maxcount_ge_mem hist hist.dedup _ k (List.mem_dedup.mpr hk)
  · rw [List.count_eq_zero.mpr hk]
    exact Nat.zero_le _

/-- C8: per tracker id the class history is bounded to the last 30 observations
(the update equals taking the suffix of the appended history, dropping the
oldest entry when 30 is exceeded), the reported class is a mode of that history
(no class label occurs in the history more often than the reported one), and
the scenario history `[car, car, truck]` — class ids `[1, 1, 2]` under the map
car ↦ 1, truck ↦ 2 — reports car rather than the latest raw class truck. -/
theorem c8_class_stabilization (hist : List ℕ) (c : ℕ) (hlen : hist.length ≤ 30) :
    (classHistoryUpdate hist c).length ≤ 30 ∧
    classHistoryUpdate hist c = (hist ++ [c]).drop ((hist ++ [c]).length - 30) ∧
    (∀ k : ℕ, hist.count k ≤ hist.count (stableClass hist)) ∧
    stableClass [1, 1, 2] = 1 ∧
    idToName [("car", 1), ("truck", 2)] (stableClass [1, 1, 2]) = "car" := by
  refine ⟨?_, ?_, stableClass_mode hist, by rfl, by rfl⟩
  · rw [classHistoryUpdate]
    split_ifs with h
    · simp only [List.length_tail, List.length_append, List.length_singleton]
      omega
    · simp only [List.length_append, List.length_singleton] at h ⊢
      omega
  · rw [classHistoryUpdate]
    split_ifs with h
    · have h31 : (hist ++ [c]).length - 30 = 1 := by
        simp only [List.length_append, List.length_singleton] at h ⊢
        omega
      rw [h31, ← List.drop_one]
    · have h0 : (hist ++ [c]).length - 30 = 0 := by
        simp only [List.length_append, List.length_singleton] at h ⊢
        omega
      rw [h0, List.drop_zero]

/-- C8 witness: the scenario history `[1, 1, 2]` (car, car, truck) stays within
the 30-entry bound after an update, truck occurs no more often than the
reported stable class, and the reported type is "car". -/
theorem c8_class_stabilization_witness :
    ([1, 1, 2] : List ℕ).length ≤ 30 ∧
    (classHistoryUpdate [1, 1, 2] 1).length ≤ 30 ∧
    ([1, 1, 2] : List ℕ).count 2 ≤ ([1, 1, 2] : List ℕ).count (stableClass [1, 1, 2]) ∧
    idToName [("car", 1), ("truck", 2)] (stableClass [1, 1, 2]) = "car" := by
  have h := c8_class_stabilization [1, 1, 2] 1 (by decide)
  exact ⟨by decide, h.1, h.2.2.1 2, h.2.2.2.2⟩

/-! ## C9: broadcaster fan-out -/

/-- One `broadcast` step can only add the broadcast payload itself to a
subscriber queue: every item of a queue afterwards was already there or is the
payload. In particular a delivery dropped at a full queue leaves no trace to be
delivered later. -/
lemma broadcast_step_provenance {α : Type} (st : BroadcasterState α) (cam : String) (d : α) :
    ∀ p ∈ (broadcast st cam d).subscribers, ∀ q ∈ p.2, ∀ x ∈ q.items,
      (∃ p0 ∈ st.subscribers, ∃ q0 ∈ p0.2, x ∈ q0.items) ∨ x = d := by
  intro p hp q hq x hx
  rcases List.mem_map.mp hp with ⟨p1, hp1, rfl⟩
  by_cases hc : (p1.1 == cam) = true
  · rw [if_pos hc] at hq
    rcases List.mem_map.mp hq with ⟨q1, hq1, rfl⟩
    rw [putNonBlocking] at hx
    split_ifs at hx with hroom
    · rcases List.mem_append.mp hx with hx1 | hx2
      · exact Or.inl ⟨p1, hp1, q1, hq1, hx1⟩
      · exact Or.inr (List.mem_singleton.mp hx2)
    · exact Or.inl ⟨p1, hp1, q1, hq1, hx⟩
  · rw [if_neg hc] at hq
    exact Or.inl ⟨p1, hp1, q, hq, hx⟩

/-- Over any sequence of later broadcasts, every item found in a subscriber
queue either was present initially or is one of the later payloads: a dropped
message (absent initially and not re-broadcast) is never delivered later. -/
lemma broadcast_fold_provenance {α : Type} :
    ∀ (later : List (String × α)) (st : BroadcasterState α),
    ∀ p ∈ (later.foldl (fun acc b => broadcast acc b.1 b.2) st).subscribers,
      ∀ q ∈ p.2, ∀ x ∈ q.items,
        (∃ p0 ∈ st.subscribers, ∃ q0 ∈ p0.2, x ∈ q0.items) ∨ x ∈ later.map (fun b => b.2)
  | [], st => fun p hp q hq x hx => Or.inl ⟨p, hp, q, hq, hx⟩
  | b :: later, st => by
    intro p hp q hq x hx
    rw [List.foldl_cons] at hp
    rcases broadcast_fold_provenance later (broadcast st b.1 b.2) p hp q hq x hx with h | h
    · rcases h with ⟨p0, hp0, q0, hq0, hx0⟩
      rcases broadcast_step_provenance st b.1 b.2 p0 hp0 q0 hq0 x hx0 with h2 | h2
      · exact Or.inl h2
      · exact Or.inr (by simp [h2])
    · exact Or.inr (by simp [h])

/-- C9: `broadcast(camera_id, data)` updates the cached latest-state for the
key; every subscriber queue under that key undergoes exactly a non-blocking
put — a queue with space receives the message appended while a full queue is
left untouched (that single delivery is dropped), independently of every other
queue; subscribers of other cameras are unaffected; the publisher's update is a
total function of the state (it never waits on any queue); and a dropped
message is never delivered later (queue items can only originate from the
initial state or from later broadcast payloads). -/
theorem c9_broadcast_isolation {α : Type} (st : BroadcasterState α)
    (camera_id : String) (d : α) (later : List (String × α)) :
    cacheLookup (broadcast st camera_id d).latest camera_id = some d ∧
    (broadcast st camera_id d).subscribers =
      st.subscribers.map (fun p =>
        if p.1 == camera_id then (p.1, p.2.map (fun q => putNonBlocking q d)) else p) ∧
    (∀ q : SubQueue α, q.items.length < q.capacity →
      (putNonBlocking q d).items = q.items ++ [d]) ∧
    (∀ q : SubQueue α, ¬ q.items.length < q.capacity → putNonBlocking q d = q) ∧
    (∀ p ∈ st.subscribers, p.1 ≠ camera_id → p ∈ (broadcast st camera_id d).subscribers) ∧
    (∀ p ∈ (later.foldl (fun acc b => broadcast acc b.1 b.2) st).subscribers,
      ∀ q ∈ p.2, ∀ x ∈ q.items,
        (∃ p0 ∈ st.subscribers, ∃ q0 ∈ p0.2, x ∈ q0.items) ∨
          x ∈ later.map (fun b => b.2)) := by
  refine ⟨?_, rfl, ?_, ?_, ?_, broadcast_fold_provenance later st⟩
  · simp [broadcast, cacheLookup]
  · intro q h
    rw [putNonBlocking, if_pos h]
  · intro q h
    rw [putNonBlocking, if_neg h]
  · intro p hp hne
    refine List.mem_map.mpr ⟨p, hp, ?_⟩
    rw [if_neg (by simpa using hne)]

/-- Broadcaster state with one camera and two subscribers: a full queue
(capacity 1 holding one item) and a queue with space (capacity 2, empty). -/
def demoBroadcasterState : BroadcasterState ℕ :=
  { latest := [],
    subscribers := [("cam", [{ capacity := 1, items := [0] }, { capacity := 2, items := [] }])] }

/-- C9 witness: broadcasting 5 on `demoBroadcasterState` caches 5 for "cam",
leaves the full subscriber queue untouched (the delivery to it is dropped) and
delivers 5 to the subscriber with space. -/
theorem c9_broadcast_witness :
    cacheLookup (broadcast demoBroadcasterState "cam" 5).latest "cam" = some 5 ∧
    putNonBlocking ({ capacity := 1, items := [0] } : SubQueue ℕ) 5 =
      { capacity := 1, items := [0] } ∧
    (putNonBlocking ({ capacity := 2, items := [] } : SubQueue ℕ) 5).items = [5] := by
  have h := c9_broadcast_isolation demoBroadcasterState "cam" 5 []
  refine ⟨h.1, h.2.2.2.1 _ (by decide), ?_⟩
  rw [h.2.2.1 _ (by decide)]
  rfl

end CerebroVial
